import Mathlib

/-!
Verification of the sender categorization pipeline
(`apps/web/app/(app)/stats/EmailActionsAnalytics.tsx`).

The pipeline discovers email senders, deduplicates them against persisted
assignments, applies static classification rules, calls a batch AI
classifier, re-classifies still-unknown senders one at a time, persists
category assignments, and records a per-user watermark of observed message
times.  External collaborators (the mailbox provider, the AI engine) are
modelled as oracle functions; the relational store is modelled as an
explicit state value threaded through the operations.
-/

/-- JS `String.prototype.includes` on character lists: does `pat` occur as a
contiguous substring? -/
def charListIncludes (pat : List Char) : List Char → Bool
  | [] => pat.isEmpty
  | c :: rest => pat.isPrefixOf (c :: rest) || charListIncludes pat rest

/-- JS `s.includes(pat)`. -/
def jsIncludes (s pat : String) : Bool :=
  charListIncludes pat.data s.data

/-- A persisted `Category` row: belongs to one user, has a per-user-unique
name. -/
structure Category where
  id : Nat
  name : String
  userId : String
deriving DecidableEq, Repr

/-- A persisted `Newsletter` row: the (sender email, user) assignment record,
pointing at an optional category. -/
structure Newsletter where
  email : String
  userId : String
  categoryId : Option Nat
deriving DecidableEq, Repr

/-- The relational store: category rows, assignment rows, and a fresh-id
counter for category creation. -/
structure DB where
  categories : List Category
  newsletters : List Newsletter
  nextCategoryId : Nat
deriving DecidableEq, Repr

/-- Errors raised by external calls and by the persistence layer. -/
inductive PipeError
  | uniqueConflict
  | providerFailure (msg : String)
  | engineFailure (msg : String)
deriving DecidableEq, Repr

/-- Modelled from the spec: the persistence engine's create (missing Prisma
schema) — a category name is unique within a user's category set, so creating
a duplicate (name, userId) pair raises a uniqueness conflict; otherwise a
fresh row is appended. -/
def prismaCategoryCreate (db : DB) (name userId : String) :
    Except PipeError (Category × DB) :=
  if db.categories.any (fun c => c.name == name && c.userId == userId) then
    .error .uniqueConflict
  else
    let c : Category := ⟨db.nextCategoryId, name, userId⟩
    .ok (c, { db with
              categories := db.categories ++ [c],
              nextCategoryId := db.nextCategoryId + 1 })

/-- A keyed upsert on a list: when some element matches the key predicate,
overwrite every match with the new value; otherwise append the new value. -/
def upsertBy {α : Type} (p : α → Bool) (m : α) (xs : List α) : List α :=
  if xs.any p then xs.map (fun n => if p n then m else n) else xs ++ [m]

/-- The row-list effect of `prisma.newsletter.upsert` keyed on
`email_userId`: update the `categoryId` of the (email, userId) row, or
append the row when none exists. -/
def upsertRows (rows : List Newsletter) (email userId : String) (categoryId : Nat) :
    List Newsletter :=
  upsertBy (fun n => n.email == email && n.userId == userId)
    ⟨email, userId, some categoryId⟩ rows

/-- `prisma.newsletter.upsert` keyed on `email_userId`: update the
`categoryId` of the existing (email, userId) row, or create the row; the
resulting row is returned. -/
def prismaNewsletterUpsert (db : DB) (email userId : String) (categoryId : Nat) :
    Newsletter × DB :=
  (⟨email, userId, some categoryId⟩,
   { db with newsletters := upsertRows db.newsletters email userId categoryId })

/-- The category catalog entries passed around by the pipeline
(`Pick<Category, "id" | "name">`). -/
structure CatRef where
  id : Nat
  name : String
deriving DecidableEq, Repr

/-- Return value of `updateSenderCategory`. -/
structure UpdateSenderResult where
  newCategory : Option Category
  newsletter : Newsletter
deriving DecidableEq, Repr

/-- `updateSenderCategory`: look the category name up in the caller-supplied
catalog; if absent, create the category (which can raise a uniqueness
conflict); then upsert the (sender, user) assignment to the category id. -/
def updateSenderCategory (db : DB) (userId sender : String)
    (categories : List CatRef) (categoryName : String) :
    Except PipeError (UpdateSenderResult × DB) :=
  match categories.find? (fun c => c.name == categoryName) with
  | some category =>
    let (newsletter, db1) := prismaNewsletterUpsert db sender userId category.id
    .ok (⟨none, newsletter⟩, db1)
  | none =>
    match prismaCategoryCreate db categoryName userId with
    | .error e => .error e
    | .ok (newCategory, db1) =>
      let (newsletter, db2) := prismaNewsletterUpsert db1 sender userId newCategory.id
      .ok (⟨some newCategory, newsletter⟩, db2)

/-- Modelled from the spec: the newsletter heuristic
(`isNewsletterSender` from `utils/ai/group/find-newsletters`, not in scope) —
a structural signal in the address/display name. -/
def isNewsletterSender (sender : String) : Bool :=
  jsIncludes sender "newsletter"

/-- Modelled from the spec: the receipt/transactional heuristic
(`isReceiptSender` from `utils/ai/group/find-receipts`, not in scope) —
a structural signal in the address/display name. -/
def isReceiptSender (sender : String) : Bool :=
  jsIncludes sender "receipt"

/-- Modelled from the spec: `defaultCategory.UNKNOWN.name`, the deferred
sentinel. -/
def UNKNOWN : String := "Unknown"

/-- Modelled from the spec: `defaultCategory.NEWSLETTER.name`. -/
def NEWSLETTER : String := "Newsletter"

/-- Modelled from the spec: `defaultCategory.RECEIPT.name`. -/
def RECEIPT : String := "Receipt"

/-- Modelled from the spec: the engine's insufficient-information sentinel
(`REQUEST_MORE_INFORMATION_CATEGORY`, not in scope). -/
def REQUEST_MORE_INFORMATION_CATEGORY : String := "request more information"

/-- A transient classification result `{ sender, category? }`. -/
structure SenderResult where
  sender : String
  category : Option String
deriving DecidableEq, Repr

/-- The fixed list of large consumer mail provider domains. -/
def personalEmailDomains : List String :=
  ["gmail.com", "googlemail.com", "yahoo.com", "hotmail.com", "outlook.com", "aol.com"]

/-- The per-sender body of `preCategorizeSendersWithStaticRules`: personal
mail provider domain (matched against the angle-bracketed form so-and-so
followed by the domain and a closing bracket) maps to "Unknown"; otherwise
the newsletter heuristic, then the receipt heuristic; otherwise unresolved. -/
def staticRuleCategory (sender : String) : Option String :=
  if personalEmailDomains.any (fun domain => jsIncludes sender ("@" ++ domain ++ ">")) then
    some UNKNOWN
  else if isNewsletterSender sender then
    some NEWSLETTER
  else if isReceiptSender sender then
    some RECEIPT
  else
    none

/-- `preCategorizeSendersWithStaticRules`. -/
def preCategorizeSendersWithStaticRules (senders : List String) : List SenderResult :=
  senders.map (fun sender => ⟨sender, staticRuleCategory sender⟩)

/-- The senders left unresolved by the static rules; exactly these are sent
to the batch AI engine (`sendersToCategorizeWithAi` in `categorizeWithAi`). -/
def sendersToCategorizeWithAi (senders : List String) : List String :=
  ((preCategorizeSendersWithStaticRules senders).filter
    (fun r => r.category.isNone)).map (fun r => r.sender)

/-- `categorizeWithAi` with the batch AI engine as an oracle: the result is
the static-rule results for all senders, followed by the engine's results
for the static-unresolved senders. -/
def categorizeWithAi (aiBatch : List String → List SenderResult)
    (senders : List String) : List SenderResult :=
  preCategorizeSendersWithStaticRules senders ++ aiBatch (sendersToCategorizeWithAi senders)

/-- A `getExistingSenders` row: the assignment's email and the (optional)
name of its category. -/
structure ExistingSender where
  email : String
  categoryName : Option String
deriving DecidableEq, Repr

/-- `getExistingSenders`: the persisted assignments among the discovered
senders for this user, with each one's category name resolved through its
`categoryId`. -/
def getExistingSenders (db : DB) (senders : List String) (userId : String) :
    List ExistingSender :=
  (db.newsletters.filter (fun n => senders.contains n.email && n.userId == userId)).map
    (fun n => ⟨n.email, n.categoryId.bind (fun cid =>
      (db.categories.find? (fun c => c.id == cid)).map (fun c => c.name))⟩)

/-- The dedup filter at the head of `categorizeNewSenders`: keep only
senders with no row in the existing-assignments lookup. -/
def sendersToCategorize (senders : List String) (existingSenders : List ExistingSender) :
    List String :=
  senders.filter (fun sender => !(existingSenders.any (fun s => s.email == sender)))

/-- The persistence loop of `categorizeNewSenders`: for each result with a
category, upsert the assignment (a thrown persistence error propagates and
aborts the loop) and count it. -/
def persistResults (userId : String) (categories : List CatRef) :
    List SenderResult → Nat → DB → Except PipeError (Nat × DB)
  | [], count, db => .ok (count, db)
  | r :: rest, count, db =>
    match r.category with
    | none => persistResults userId categories rest count db
    | some categoryName =>
      match updateSenderCategory db userId r.sender categories categoryName with
      | .error e => .error e
      | .ok (_, db1) => persistResults userId categories rest (count + 1) db1

/-- `categorizeNewSenders`: dedup against existing assignments, classify the
rest (static rules plus batch AI oracle), persist each resolved result, and
return the raw result list with the count. -/
def categorizeNewSenders (db : DB) (userId : String) (categories : List CatRef)
    (aiBatch : List String → List SenderResult)
    (senders : List String) (existingSenders : List ExistingSender) :
    Except PipeError (List SenderResult × Nat × DB) :=
  let results := categorizeWithAi aiBatch (sendersToCategorize senders existingSenders)
  match persistResults userId categories results 0 db with
  | .error e => .error e
  | .ok (count, db1) => .ok (results, count, db1)

/-- `isUnknownSender`: no category (or the JS-falsy empty string), the
"Unknown" sentinel, or the "request more information" sentinel. -/
def isUnknownSender (r : SenderResult) : Bool :=
  (match r.category with | none => true | some c => c == "") ||
  r.category == some UNKNOWN ||
  r.category == some REQUEST_MORE_INFORMATION_CATEGORY

/-- The `unknownSenders` list built in `categorizeSenders` (lines 114-120):
the first-pass results concatenated with the existing assignments, filtered
to the unknown-class entries. -/
def mkUnknownSenders (results : List SenderResult)
    (existingSenders : List ExistingSender) : List SenderResult :=
  (results ++ existingSenders.map (fun s => SenderResult.mk s.email s.categoryName)).filter
    isUnknownSender

/-- External collaborators of the fallback loop: the discovery page's
sender-to-messages map (each message modelled by its optional snippet), the
per-sender provider history fetch, and the single-sender AI engine call.
Either external call may fail (`Except.error` models a thrown exception);
the engine may also succeed with no result (`none`). -/
structure FallbackEnv where
  sendersMap : String → Option (List (Option String))
  fetchPrev : String → Except PipeError (List String)
  aiSingle : String → List String → Except PipeError (Option String)

/-- `categorizeUnknownSenders`: for each sender in order, take the snippets
already in hand (or fetch history if there are none), call the single-sender
AI engine, and persist a returned category.  There is no per-iteration
handler: an error from the fetch, the engine, or persistence propagates and
ends the loop; an engine response of `none` merely skips the sender. -/
def categorizeUnknownSendersLoop (env : FallbackEnv) (userId : String)
    (categories : List CatRef) :
    List SenderResult → Nat → DB → Except PipeError (Nat × DB)
  | [], count, db => .ok (count, db)
  | s :: rest, count, db =>
    let previousEmails0 :=
      ((env.sendersMap s.sender).map (fun ms => ms.filterMap id)).getD []
    let fetched : Except PipeError (List String) :=
      if previousEmails0.isEmpty then env.fetchPrev s.sender else .ok previousEmails0
    match fetched with
    | .error e => .error e
    | .ok previousEmails =>
      match env.aiSingle s.sender previousEmails with
      | .error e => .error e
      | .ok none => categorizeUnknownSendersLoop env userId categories rest count db
      | .ok (some category) =>
        match updateSenderCategory db userId s.sender categories category with
        | .error e => .error e
        | .ok (_, db1) =>
          categorizeUnknownSendersLoop env userId categories rest (count + 1) db1

/-- The observed date bounds of one discovery page (`dateRange`); `none`
models a null bound. -/
structure DateRange where
  oldestDate : Option Int
  newestDate : Option Int
deriving DecidableEq, Repr

/-- The per-user watermark fields of the `User` row. -/
structure UserRecord where
  id : String
  oldestCategorizedEmailTime : Option Int
  newestCategorizedEmailTime : Option Int
deriving DecidableEq, Repr

/-- The watermark write of `categorizeSenders` (lines 131-138):
`prisma.user.update` with each field set to the observed bound, where a null
bound is turned into `undefined` by the nullish-coalescing operator and the
update skips that field, leaving the stored value unchanged. -/
def updateCategorizedTimes (u : UserRecord) (dr : DateRange) : UserRecord :=
  { u with
    newestCategorizedEmailTime :=
      match dr.newestDate with
      | some d => some d
      | none => u.newestCategorizedEmailTime,
    oldestCategorizedEmailTime :=
      match dr.oldestDate with
      | some d => some d
      | none => u.oldestCategorizedEmailTime }

/-- Modelled from the spec: `getUserCategories` (from `utils/category.server`,
not in scope) returns the user's category catalog. -/
def getUserCategories (db : DB) (userId : String) : List CatRef :=
  (db.categories.filter (fun c => c.userId == userId)).map (fun c => ⟨c.id, c.name⟩)

/-- `getCategories`: a typed error when the user has no categories. -/
def getCategories (userCategories : List CatRef) : Except String (List CatRef) :=
  if userCategories.length == 0 then .error "No categories found"
  else .ok userCategories

/-- External calls made by the single-sender entry point. -/
structure SingleEnv where
  fetchPrev : String → Except PipeError (List String)
  aiSingle : String → List String → Except PipeError (Option String)

/-- A record of which external effects the single-sender entry point
performed. -/
inductive EffectLogEntry
  | providerFetch (sender : String)
  | engineCall (sender : String)
  | dbWrite (sender : String)
deriving DecidableEq, Repr

/-- `categorizeSender` (single-sender entry point): with an empty catalog it
returns `{ categoryId: undefined }` immediately; otherwise it fetches
history, calls the engine, and on a result upserts the assignment and
returns its category id.  The third component logs the external calls and
writes performed. -/
def categorizeSender (env : SingleEnv) (senderAddress userId : String) (db : DB) :
    Except PipeError (Option Nat × DB × List EffectLogEntry) :=
  let categories := getUserCategories db userId
  if categories.length == 0 then .ok (none, db, [])
  else
    match env.fetchPrev senderAddress with
    | .error e => .error e
    | .ok previousEmails =>
      match env.aiSingle senderAddress previousEmails with
      | .error e => .error e
      | .ok none =>
        .ok (none, db, [.providerFetch senderAddress, .engineCall senderAddress])
      | .ok (some category) =>
        match updateSenderCategory db userId senderAddress categories category with
        | .error e => .error e
        | .ok (res, db1) =>
          .ok (res.newsletter.categoryId, db1,
               [.providerFetch senderAddress, .engineCall senderAddress,
                .dbWrite senderAddress])

/-- The orchestrator's error outcomes: a typed `ActionError` returned to the
caller, or an uncaught exception escaping the invocation. -/
inductive OrchError
  | action (msg : String)
  | thrown (e : PipeError)
deriving DecidableEq, Repr

/-- The orchestrator's success value. -/
structure BatchOutcome where
  categorizedCount : Nat
  nextPageToken : Option String
deriving DecidableEq, Repr

/-- External collaborators of one `categorizeSenders` invocation: the
user/AI-access validation outcome, the discovery page (senders, continuation
token, observed date range, sender-to-messages map), and the AI engine
oracles. -/
structure OrchEnv where
  userOk : Except String Unit
  senders : List String
  nextPageToken : Option String
  dateRange : DateRange
  sendersMap : String → Option (List (Option String))
  aiBatch : List String → List SenderResult
  fetchPrev : String → Except PipeError (List String)
  aiSingle : String → List String → Except PipeError (Option String)

/-- `categorizeSenders` (the orchestrator): validate access, fetch the
catalog (typed error when empty), look up existing assignments, run the
first pass, build the unknown-senders list, run the fallback loop, then
write the watermark and return the count and continuation token. -/
def categorizeSenders (env : OrchEnv) (userId : String) (db : DB)
    (user : UserRecord) : Except OrchError (BatchOutcome × DB × UserRecord) :=
  match env.userOk with
  | .error e => .error (.action e)
  | .ok _ =>
    match getCategories (getUserCategories db userId) with
    | .error e => .error (.action e)
    | .ok categories =>
      let existingSenders := getExistingSenders db env.senders userId
      match categorizeNewSenders db userId categories env.aiBatch env.senders
          existingSenders with
      | .error e => .error (.thrown e)
      | .ok (results, initialCount, db1) =>
        let unknownSenders := mkUnknownSenders results existingSenders
        match categorizeUnknownSendersLoop
            ⟨env.sendersMap, env.fetchPrev, env.aiSingle⟩ userId categories
            unknownSenders 0 db1 with
        | .error e => .error (.thrown e)
        | .ok (unknownCount, db2) =>
          .ok (⟨initialCount + unknownCount, env.nextPageToken⟩, db2,
               updateCategorizedTimes user env.dateRange)

/-- A fallback environment in which the provider history fetch fails. -/
def cexFallbackEnv : FallbackEnv :=
  { sendersMap := fun _ => none,
    fetchPrev := fun _ => .error (.providerFailure "network"),
    aiSingle := fun _ _ => .ok (some "Newsletter") }

/-- A fallback environment in which snippets are in hand and the engine
returns no result. -/
def skipFallbackEnv : FallbackEnv :=
  { sendersMap := fun _ => some [some "snippet"],
    fetchPrev := fun _ => .ok [],
    aiSingle := fun _ _ => .ok none }

/-- A single-sender environment for concrete runs. -/
def singleEnvW : SingleEnv :=
  { fetchPrev := fun _ => .ok [], aiSingle := fun _ _ => .ok none }

/-- An orchestrator environment for concrete runs. -/
def orchEnvW : OrchEnv :=
  { userOk := .ok (), senders := [], nextPageToken := none,
    dateRange := ⟨none, none⟩, sendersMap := fun _ => none,
    aiBatch := fun _ => [], fetchPrev := fun _ => .ok [],
    aiSingle := fun _ _ => .ok none }

example : staticRuleCategory "a@gmail.com" = none := by decide
example : staticRuleCategory "A <a@gmail.com>" = some UNKNOWN := by decide
example : staticRuleCategory "newsletter@list.example" = some NEWSLETTER := by decide
example : staticRuleCategory "receipts@store.example" = some RECEIPT := by decide


/-- Overwriting every match of `p` with a fixed value that itself matches
`p` preserves whether a match exists. -/
theorem any_map_ite {α : Type} (p : α → Bool) (m : α) (hm : p m = true) (l : List α) :
    (l.map (fun n => if p n then m else n)).any p = l.any p := by
  induction l with
  | nil => rfl
  | cons a t ih =>
    simp only [List.map_cons, List.any_cons, ih]
    by_cases h : p a = true
    · simp [h, hm]
    · simp [h]

/-- Overwriting every match of `p` with a fixed matching value is
idempotent. -/
theorem map_ite_idem {α : Type} (p : α → Bool) (m : α) (hm : p m = true) (l : List α) :
    ((l.map (fun n => if p n then m else n)).map (fun n => if p n then m else n)) =
      l.map (fun n => if p n then m else n) := by
  induction l with
  | nil => rfl
  | cons a t ih =>
    by_cases h : p a = true
    · simp [h, hm, ih]
    · simp [h, ih]

/-- With no match of `p` present, overwriting the matches changes nothing. -/
theorem map_ite_of_any_eq_false {α : Type} (p : α → Bool) (m : α) (l : List α)
    (h : l.any p = false) : l.map (fun n => if p n then m else n) = l := by
  induction l with
  | nil => rfl
  | cons a t ih =>
    simp only [List.any_cons, Bool.or_eq_false_iff] at h
    simp [h.1, ih h.2]

/-- Overwriting every match of `p` with a fixed matching value preserves the
number of matches. -/
theorem countP_map_ite {α : Type} (p : α → Bool) (m : α) (hm : p m = true) (l : List α) :
    (l.map (fun n => if p n then m else n)).countP p = l.countP p := by
  induction l with
  | nil => rfl
  | cons a t ih =>
    by_cases h : p a = true
    · simp [List.countP_cons, h, hm, ih]
    · simp [List.countP_cons, h, ih]

/-- When a match exists, the keyed upsert is the overwrite branch. -/
theorem upsertBy_of_any_true {α : Type} (p : α → Bool) (m : α) (xs : List α)
    (h : xs.any p = true) :
    upsertBy p m xs = xs.map (fun n => if p n then m else n) := by
  unfold upsertBy
  exact if_pos h

/-- When no match exists, the keyed upsert is the append branch. -/
theorem upsertBy_of_any_false {α : Type} (p : α → Bool) (m : α) (xs : List α)
    (h : xs.any p = false) :
    upsertBy p m xs = xs ++ [m] := by
  unfold upsertBy
  exact if_neg (by simp [h])

/-- A keyed upsert of a value matching its own key is idempotent. -/
theorem upsertBy_idem {α : Type} (p : α → Bool) (m : α) (hm : p m = true) (xs : List α) :
    upsertBy p m (upsertBy p m xs) = upsertBy p m xs := by
  cases hany : xs.any p with
  | true =>
    rw [upsertBy_of_any_true p m xs hany]
    rw [upsertBy_of_any_true p m _ (by rw [any_map_ite p m hm xs]; exact hany)]
    exact map_ite_idem p m hm xs
  | false =>
    rw [upsertBy_of_any_false p m xs hany]
    rw [upsertBy_of_any_true p m _ (by simp [hm])]
    rw [List.map_append, map_ite_of_any_eq_false p m xs hany]
    simp [hm]

/-- Starting from at most one match, a keyed upsert of a value matching its
own key leaves exactly one match. -/
theorem upsertBy_countP {α : Type} (p : α → Bool) (m : α) (hm : p m = true) (xs : List α)
    (h : xs.countP p ≤ 1) : (upsertBy p m xs).countP p = 1 := by
  cases hany : xs.any p with
  | true =>
    rw [upsertBy_of_any_true p m xs hany, countP_map_ite p m hm xs]
    exact Nat.le_antisymm h (List.countP_pos_iff.mpr (List.any_eq_true.mp hany))
  | false =>
    rw [upsertBy_of_any_false p m xs hany]
    have hzero : xs.countP p = 0 := by
      rw [List.countP_eq_zero]
      intro a ha hpa
      have hx := List.any_eq_true.mpr ⟨a, ha, hpa⟩
      rw [hany] at hx
      exact absurd hx (by decide)
    rw [List.countP_append, hzero]
    simp [hm, List.countP_cons]

/-- Upserting the same (email, userId, categoryId) twice into the row list
equals upserting it once. -/
theorem upsertRows_idem (rows : List Newsletter) (e u : String) (cid : Nat) :
    upsertRows (upsertRows rows e u cid) e u cid = upsertRows rows e u cid :=
  upsertBy_idem _ _ (by simp) rows

/-- Starting from at most one matching row, the upsert leaves exactly one
matching row. -/
theorem upsertRows_count_one (rows : List Newsletter) (e u : String) (cid : Nat)
    (h : rows.countP (fun n => n.email == e && n.userId == u) ≤ 1) :
    (upsertRows rows e u cid).countP (fun n => n.email == e && n.userId == u) = 1 :=
  upsertBy_countP _ _ (by simp) rows h

/-- C1 counterexample: the watermark write does not merge with min/max.
With stored bounds (5, 20) and observed bounds (10, 15), the stored oldest
becomes 10, not min(5, 10) = 5, and the stored newest becomes 15, not
max(20, 15) = 20 — so the stored oldest increases and the stored newest
decreases across this run. -/
theorem watermark_write_not_min_max_merge :
    (updateCategorizedTimes ⟨"u", some 5, some 20⟩
        ⟨some 10, some 15⟩).oldestCategorizedEmailTime ≠ some (min 5 10) ∧
    (updateCategorizedTimes ⟨"u", some 5, some 20⟩
        ⟨some 10, some 15⟩).newestCategorizedEmailTime ≠ some (max 20 15) := by
  decide

/-- C1 (amended): the watermark write overwrites each stored bound with the
observed bound whenever the observed bound is non-null, regardless of the
previously stored value; no min/max merge is performed, so the stored
oldest can increase and the stored newest can decrease across runs. -/
theorem watermark_write_overwrites_bounds (u : UserRecord) (dr : DateRange)
    (a b : Int) (ho : dr.oldestDate = some a) (hn : dr.newestDate = some b) :
    (updateCategorizedTimes u dr).oldestCategorizedEmailTime = some a ∧
    (updateCategorizedTimes u dr).newestCategorizedEmailTime = some b := by
  simp [updateCategorizedTimes, ho, hn]

/-- Witness for the amended C1 theorem at stored (5, 20), observed (10, 15). -/
theorem watermark_write_overwrites_bounds_witness :
    (updateCategorizedTimes ⟨"u", some 5, some 20⟩
        ⟨some 10, some 15⟩).oldestCategorizedEmailTime = some 10 ∧
    (updateCategorizedTimes ⟨"u", some 5, some 20⟩
        ⟨some 10, some 15⟩).newestCategorizedEmailTime = some 15 :=
  watermark_write_overwrites_bounds ⟨"u", some 5, some 20⟩ ⟨some 10, some 15⟩
    10 15 rfl rfl

/-- C10: in the watermark write, each bound is handled independently — a
null observed bound leaves the corresponding stored field unchanged (null
maps to undefined, which skips the field), while a non-null bound is
written. -/
theorem watermark_null_bound_skipped (u : UserRecord) (dr : DateRange) :
    (dr.oldestDate = none →
      (updateCategorizedTimes u dr).oldestCategorizedEmailTime =
        u.oldestCategorizedEmailTime) ∧
    (dr.newestDate = none →
      (updateCategorizedTimes u dr).newestCategorizedEmailTime =
        u.newestCategorizedEmailTime) ∧
    (∀ d : Int, dr.oldestDate = some d →
      (updateCategorizedTimes u dr).oldestCategorizedEmailTime = some d) ∧
    (∀ d : Int, dr.newestDate = some d →
      (updateCategorizedTimes u dr).newestCategorizedEmailTime = some d) := by
  refine ⟨fun h => ?_, fun h => ?_, fun d h => ?_, fun d h => ?_⟩ <;>
    simp [updateCategorizedTimes, h]

/-- Witness for C10: a null observed oldest leaves the stored oldest at 5
while the non-null observed newest 15 is still written. -/
theorem watermark_null_bound_skipped_witness :
    (updateCategorizedTimes ⟨"u", some 5, some 20⟩
        ⟨none, some 15⟩).oldestCategorizedEmailTime = some 5 ∧
    (updateCategorizedTimes ⟨"u", some 5, some 20⟩
        ⟨none, some 15⟩).newestCategorizedEmailTime = some 15 :=
  ⟨(watermark_null_bound_skipped ⟨"u", some 5, some 20⟩ ⟨none, some 15⟩).1 rfl,
   (watermark_null_bound_skipped ⟨"u", some 5, some 20⟩ ⟨none, some 15⟩).2.2.2 15 rfl⟩

/-- C3 counterexample: on the spec's example input the static rules leave
the bare address "a@gmail.com" unresolved (no category), not "Unknown" —
the personal-domain rule only matches the angle-bracketed form — while the
other two senders resolve to "Newsletter" and "Receipt". -/
theorem static_rules_example_gmail_not_unknown :
    (preCategorizeSendersWithStaticRules
        ["a@gmail.com", "newsletter@list.example", "receipts@store.example"]).map
      (fun r => r.category) = [none, some "Newsletter", some "Receipt"] ∧
    (none : Option String) ≠ some "Unknown" := by
  decide

/-- C3 (amended): on the spec's example input the static rules leave
"a@gmail.com" unresolved rather than resolving it to "Unknown" (the
personal-domain rule matches only angle-bracketed senders such as
"A <a@gmail.com>"), resolve "newsletter@list.example" to "Newsletter" and
"receipts@store.example" to "Receipt", and "a@gmail.com" is still the only
sender sent to the batch AI classifier — because it is unresolved, not
because it is "Unknown". -/
theorem static_rules_example_amended :
    preCategorizeSendersWithStaticRules
        ["a@gmail.com", "newsletter@list.example", "receipts@store.example"] =
      [⟨"a@gmail.com", none⟩, ⟨"newsletter@list.example", some NEWSLETTER⟩,
       ⟨"receipts@store.example", some RECEIPT⟩] ∧
    sendersToCategorizeWithAi
        ["a@gmail.com", "newsletter@list.example", "receipts@store.example"] =
      ["a@gmail.com"] ∧
    staticRuleCategory "A <a@gmail.com>" = some UNKNOWN := by
  decide

/-- C7 counterexample: a sender matching both the newsletter heuristic and
the receipt heuristic does not always resolve to "Newsletter" — when the
personal-domain rule also matches, that rule wins first and the result is
"Unknown". -/
theorem newsletter_and_receipt_but_unknown :
    isNewsletterSender "newsletter receipt <x@gmail.com>" = true ∧
    isReceiptSender "newsletter receipt <x@gmail.com>" = true ∧
    staticRuleCategory "newsletter receipt <x@gmail.com>" ≠ some NEWSLETTER ∧
    staticRuleCategory "newsletter receipt <x@gmail.com>" = some UNKNOWN := by
  decide

/-- C7 (amended): the rules are evaluated in the fixed order personal-domain,
newsletter, receipt, and the first match wins; so a sender matching both the
newsletter and the receipt heuristic resolves to "Newsletter" provided the
personal-domain rule does not match it. -/
theorem newsletter_priority_over_receipt (sender : String)
    (hp : personalEmailDomains.any
        (fun domain => jsIncludes sender ("@" ++ domain ++ ">")) = false)
    (hn : isNewsletterSender sender = true)
    (hr : isReceiptSender sender = true) :
    staticRuleCategory sender = some NEWSLETTER := by
  unfold staticRuleCategory
  rw [hp, hn]
  simp

/-- Witness for the amended C7 theorem at a sender matching both heuristics
and no personal-provider domain. -/
theorem newsletter_priority_over_receipt_witness :
    personalEmailDomains.any (fun domain =>
      jsIncludes "newsletter receipt <x@store.example>" ("@" ++ domain ++ ">")) = false ∧
    isNewsletterSender "newsletter receipt <x@store.example>" = true ∧
    isReceiptSender "newsletter receipt <x@store.example>" = true ∧
    staticRuleCategory "newsletter receipt <x@store.example>" = some NEWSLETTER :=
  ⟨by decide, by decide, by decide,
   newsletter_priority_over_receipt "newsletter receipt <x@store.example>"
     (by decide) (by decide) (by decide)⟩

/-- C5 counterexample: when the category name is missing from the passed
catalog but a category of that name already exists for the user (the race
the spec describes), `updateSenderCategory` surfaces the uniqueness
conflict to the caller instead of recovering by re-reading the existing
category: no assignment is upserted. -/
theorem update_sender_category_conflict_error :
    updateSenderCategory ⟨[⟨7, "Newsletter", "u"⟩], [], 8⟩ "u" "a@x.com" []
        "Newsletter" = .error .uniqueConflict := by
  rfl

/-- C5 (amended): when creation hits a duplicate-name conflict, the error
propagates to the caller; there is no catch and no re-read of the existing
category, and the assignment upsert is never reached. -/
theorem update_sender_category_conflict_propagates (db : DB)
    (userId sender categoryName : String) (categories : List CatRef)
    (hfind : categories.find? (fun c => c.name == categoryName) = none)
    (hdup : db.categories.any
        (fun c => c.name == categoryName && c.userId == userId) = true) :
    updateSenderCategory db userId sender categories categoryName =
      .error .uniqueConflict := by
  unfold updateSenderCategory prismaCategoryCreate
  rw [hfind, hdup]
  rfl

/-- Witness for the amended C5 theorem: stale empty catalog, "Receipt"
already present in the store for user "u". -/
theorem update_sender_category_conflict_propagates_witness :
    updateSenderCategory ⟨[⟨7, "Receipt", "u"⟩], [], 8⟩ "u" "b@x.com" []
        "Receipt" = .error .uniqueConflict :=
  update_sender_category_conflict_propagates ⟨[⟨7, "Receipt", "u"⟩], [], 8⟩
    "u" "b@x.com" "Receipt" [] rfl rfl

/-- C4 counterexample: the fallback loop has no per-sender handler — when
the provider history fetch for the first sender fails, the error propagates
out of the loop: the second sender is never processed and no count is
returned. -/
theorem fallback_loop_aborts_on_thrown_failure :
    categorizeUnknownSendersLoop cexFallbackEnv "u" [⟨1, "Newsletter"⟩]
        [⟨"a@x.com", none⟩, ⟨"b@y.com", none⟩] 0 ⟨[⟨1, "Newsletter", "u"⟩], [], 2⟩ =
      .error (.providerFailure "network") := by
  rfl

/-- C4 (amended): a missing (null) engine response merely leaves the sender
uncounted and the loop continues with the remaining senders unchanged; but
a thrown failure of an external call is not caught per-sender — it
propagates and aborts the loop (see the counterexample). -/
theorem fallback_loop_skips_empty_ai_response (env : FallbackEnv)
    (userId : String) (categories : List CatRef) (s : SenderResult)
    (rest : List SenderResult) (count : Nat) (db : DB)
    (msgs : List (Option String))
    (h1 : env.sendersMap s.sender = some msgs)
    (h2 : (msgs.filterMap id).isEmpty = false)
    (h3 : env.aiSingle s.sender (msgs.filterMap id) = .ok none) :
    categorizeUnknownSendersLoop env userId categories (s :: rest) count db =
      categorizeUnknownSendersLoop env userId categories rest count db := by
  simp only [categorizeUnknownSendersLoop, h1, Option.map_some', Option.getD_some, h2,
             Bool.false_eq_true, if_false, h3]

/-- Witness for the amended C4 theorem: snippets in hand, engine returns no
result, the one-sender loop equals the empty loop on the same state. -/
theorem fallback_loop_skips_empty_ai_response_witness :
    categorizeUnknownSendersLoop skipFallbackEnv "u" [] [⟨"a@x.com", none⟩] 0
        ⟨[], [], 0⟩ =
      categorizeUnknownSendersLoop skipFallbackEnv "u" [] [] 0 ⟨[], [], 0⟩ :=
  fallback_loop_skips_empty_ai_response skipFallbackEnv "u" [] ⟨"a@x.com", none⟩
    [] 0 ⟨[], [], 0⟩ [some "snippet"] rfl rfl rfl

/-- C2 counterexample: a static-unresolved sender for which the batch AI
itself returns the "request more information" sentinel appears twice in the
`unknownSenders` list — once from its static-stage entry and once from its
AI entry — not exactly once, even though every one of its entries after the
static and batch stages is unknown-class. -/
theorem unknown_senders_list_duplicate :
    (categorizeWithAi
        (fun _ => [⟨"x@a.com", some REQUEST_MORE_INFORMATION_CATEGORY⟩])
        ["x@a.com"]).all isUnknownSender = true ∧
    (mkUnknownSenders
        (categorizeWithAi
          (fun _ => [⟨"x@a.com", some REQUEST_MORE_INFORMATION_CATEGORY⟩])
          ["x@a.com"])
        []).countP (fun r => r.sender == "x@a.com") = 2 ∧
    (2 : Nat) ≠ 1 := by
  decide

/-- C2 (amended): each sender occurs in the `unknownSenders` list once per
unknown-class entry it has — among its static-rule entry, its batch-AI
entries, and its existing-assignment entries — so a sender sent to the
batch AI whose AI result is itself unknown-class appears twice, while
senders with a single unknown-class entry appear exactly once. -/
theorem unknown_senders_multiplicity (aiBatch : List String → List SenderResult)
    (senders : List String) (existing : List ExistingSender) (s : String) :
    (mkUnknownSenders (categorizeWithAi aiBatch senders) existing).countP
        (fun r => r.sender == s) =
      (preCategorizeSendersWithStaticRules senders).countP
        (fun r => r.sender == s && isUnknownSender r) +
      (aiBatch (sendersToCategorizeWithAi senders)).countP
        (fun r => r.sender == s && isUnknownSender r) +
      (existing.map (fun x => SenderResult.mk x.email x.categoryName)).countP
        (fun r => r.sender == s && isUnknownSender r) := by
  unfold mkUnknownSenders categorizeWithAi
  rw [List.countP_filter, List.countP_append, List.countP_append]

/-- C6 counterexample: calling `updateSenderCategory` twice with identical
arguments whose category name is absent from the passed catalog is not
idempotent — the first call creates the category and the assignment row,
and the second call, instead of overwriting, fails with the duplicate-name
conflict from re-creating the category. -/
theorem assign_twice_second_call_conflicts :
    updateSenderCategory ⟨[], [], 0⟩ "u" "a@x.com" [] "Newsletter" =
      .ok (⟨some ⟨0, "Newsletter", "u"⟩, ⟨"a@x.com", "u", some 0⟩⟩,
           ⟨[⟨0, "Newsletter", "u"⟩], [⟨"a@x.com", "u", some 0⟩], 1⟩) ∧
    updateSenderCategory ⟨[⟨0, "Newsletter", "u"⟩], [⟨"a@x.com", "u", some 0⟩], 1⟩
        "u" "a@x.com" [] "Newsletter" = .error .uniqueConflict := by
  exact ⟨rfl, rfl⟩

/-- C6 (amended): when the category name is present in the passed catalog,
the assignment is idempotent — the second identical call finds the category,
upserts the same assignment, returns the same value, leaves the store
unchanged, yields exactly one assignment row for (sender, user), and
creates no category.  When the name is absent from the passed catalog, the
second identical call instead re-creates the category and fails with the
duplicate-name conflict (see the counterexample). -/
theorem assign_idempotent_for_known_category (db : DB)
    (userId sender categoryName : String) (categories : List CatRef) (c : CatRef)
    (p : UpdateSenderResult × DB)
    (hfind : categories.find? (fun x => x.name == categoryName) = some c)
    (hrows : db.newsletters.countP
        (fun n => n.email == sender && n.userId == userId) ≤ 1)
    (hcall : updateSenderCategory db userId sender categories categoryName = .ok p) :
    updateSenderCategory p.2 userId sender categories categoryName = .ok p ∧
    p.2.newsletters.countP (fun n => n.email == sender && n.userId == userId) = 1 ∧
    p.2.categories = db.categories := by
  have hcall' : updateSenderCategory db userId sender categories categoryName =
      .ok (⟨none, ⟨sender, userId, some c.id⟩⟩,
           { db with newsletters := upsertRows db.newsletters sender userId c.id }) := by
    simp only [updateSenderCategory, hfind, prismaNewsletterUpsert]
  rw [hcall'] at hcall
  injection hcall with hp
  subst hp
  refine ⟨?_, ?_, rfl⟩
  · simp only [updateSenderCategory, hfind, prismaNewsletterUpsert]
    rw [upsertRows_idem db.newsletters sender userId c.id]
  · exact upsertRows_count_one db.newsletters sender userId c.id hrows

/-- Witness for the amended C6 theorem: replaying the assignment of sender
"s" to the already-cataloged category "Foo" changes nothing and leaves one
row. -/
theorem assign_idempotent_for_known_category_witness :
    updateSenderCategory ⟨[], [⟨"s", "u", some 3⟩], 0⟩ "u" "s" [⟨3, "Foo"⟩] "Foo" =
      .ok (⟨none, ⟨"s", "u", some 3⟩⟩, ⟨[], [⟨"s", "u", some 3⟩], 0⟩) ∧
    (⟨[], [⟨"s", "u", some 3⟩], 0⟩ : DB).newsletters.countP
        (fun n => n.email == "s" && n.userId == "u") = 1 ∧
    (⟨[], [⟨"s", "u", some 3⟩], 0⟩ : DB).categories = (⟨[], [], 0⟩ : DB).categories :=
  assign_idempotent_for_known_category ⟨[], [], 0⟩ "u" "s" "Foo" [⟨3, "Foo"⟩]
    ⟨3, "Foo"⟩ (⟨none, ⟨"s", "u", some 3⟩⟩, ⟨[], [⟨"s", "u", some 3⟩], 0⟩)
    rfl (by decide) rfl

/-- C8: a sender with an existing persisted assignment (in particular one
whose category is neither "Unknown" nor "request more information") is
filtered out by the dedup step and therefore never reaches the batch AI
classifier's input list. -/
theorem batch_ai_excludes_existing_senders (senders : List String)
    (existing : List ExistingSender) (e : ExistingSender)
    (he : e ∈ existing)
    (hc1 : e.categoryName ≠ some UNKNOWN)
    (hc2 : e.categoryName ≠ some REQUEST_MORE_INFORMATION_CATEGORY) :
    e.email ∉ sendersToCategorizeWithAi (sendersToCategorize senders existing) := by
  intro hmem
  have hsub : e.email ∈ sendersToCategorize senders existing := by
    unfold sendersToCategorizeWithAi preCategorizeSendersWithStaticRules at hmem
    rcases List.mem_map.mp hmem with ⟨r, hr, hre⟩
    rcases List.mem_filter.mp hr with ⟨hr2, _⟩
    rcases List.mem_map.mp hr2 with ⟨x, hx, hxe⟩
    rw [← hre, ← hxe]
    exact hx
  rcases List.mem_filter.mp hsub with ⟨_, hcond⟩
  have hany : existing.any (fun s => s.email == e.email) = true :=
    List.any_eq_true.mpr ⟨e, he, by simp⟩
  rw [hany] at hcond
  exact absurd hcond (by decide)

/-- Witness for C8: "p@x.com" has a persisted "Receipt" assignment and does
not occur in the batch AI input computed from the discovery page. -/
theorem batch_ai_excludes_existing_senders_witness :
    (⟨"p@x.com", some "Receipt"⟩ : ExistingSender) ∈
        [(⟨"p@x.com", some "Receipt"⟩ : ExistingSender)] ∧
    "p@x.com" ∉ sendersToCategorizeWithAi
        (sendersToCategorize ["p@x.com", "q@y.com"] [⟨"p@x.com", some "Receipt"⟩]) :=
  ⟨by decide,
   batch_ai_excludes_existing_senders ["p@x.com", "q@y.com"]
     [⟨"p@x.com", some "Receipt"⟩] ⟨"p@x.com", some "Receipt"⟩
     (by decide) (by decide) (by decide)⟩

/-- C9: with an empty category catalog, the single-sender entry point
returns `{ categoryId: undefined }` without calling the provider or the AI
engine and without any store write, while the batch entry point returns the
typed "No categories found" error. -/
theorem empty_catalog_single_vs_batch (env : SingleEnv) (oenv : OrchEnv)
    (sender userId : String) (db : DB) (user : UserRecord)
    (hcats : getUserCategories db userId = [])
    (huser : oenv.userOk = .ok ()) :
    categorizeSender env sender userId db = .ok (none, db, []) ∧
    categorizeSenders oenv userId db user = .error (.action "No categories found") := by
  constructor
  · simp only [categorizeSender, hcats]
    rfl
  · simp only [categorizeSenders, huser, hcats, getCategories]
    rfl

/-- Witness for C9 on an empty store: the single entry returns no category
id with an empty effect log, the batch entry returns the typed error. -/
theorem empty_catalog_single_vs_batch_witness :
    categorizeSender singleEnvW "a@x.com" "u" ⟨[], [], 0⟩ =
      .ok (none, ⟨[], [], 0⟩, []) ∧
    categorizeSenders orchEnvW "u" ⟨[], [], 0⟩ ⟨"u", none, none⟩ =
      .error (.action "No categories found") :=
  empty_catalog_single_vs_batch singleEnvW orchEnvW "a@x.com" "u" ⟨[], [], 0⟩
    ⟨"u", none, none⟩ rfl rfl
